import Mathlib

/-!
Verification of the Teqpod client-side rendering and animation code
(`src/assets/js/components.js`, `src/assets/js/animations.js`) against its
natural-language specification.  The JavaScript is shallowly embedded:
DOM elements become Lean structures, renderers become pure functions from
content records to lists of rendered instances, the event-loop timers behind
debounce/throttle become explicit time-ordered traversals, and the
IntersectionObserver registry becomes explicit state passing.
-/

namespace Teqpod

/-! ## Content records (§3 of the spec; consumed by `components.js`) -/

/-- Feature record `{icon, title, description}` (components.js lines 75–91). -/
structure Feature where
  icon : String
  title : String
  description : String
deriving Repr, DecidableEq

/-- Stat record `{number, suffix, label}`; `suffix` may be absent, the code
reads `stat.suffix || ''` (components.js lines 102–124). -/
structure Stat where
  number : String
  suffix : Option String
  label : String
deriving Repr, DecidableEq

/-- Event record `{type, title, description, date}` (components.js lines 152–177).
The JS field `type` is embedded as `eventType`. -/
structure EventRec where
  eventType : String
  title : String
  description : String
  date : String
deriving Repr, DecidableEq

/-- Contact record `{icon, title, value, description}` (components.js lines 188–206). -/
structure ContactRec where
  icon : String
  title : String
  value : String
  description : String
deriving Repr, DecidableEq

/-- Footer link `{text, url}` (components.js lines 227–232). -/
structure FooterLink where
  text : String
  url : String
deriving Repr, DecidableEq

/-- Footer section record `{title, links}` (components.js lines 217–235). -/
structure FooterSection where
  title : String
  links : List FooterLink
deriving Repr, DecidableEq

/-! ## Rendered instances

A rendered instance is a clone of a template skeleton with its class-named
slots filled with text, plus the data attributes the renderer stamps on it
(`dataset.stagger`, and for stat cards `dataset.target` / `dataset.suffix`). -/

/-- One rendered DOM subtree: template name, filled text slots (slot class →
text), anchor children of the footer nav (text, url), and data attributes. -/
structure Inst where
  kind : String
  slots : List (String × String)
  links : List (String × String) := []
  dataStagger : Option Nat := none
  dataTarget : Option String := none
  dataSuffix : Option String := none
deriving Repr, DecidableEq

/-- Text of the slot with the given class name inside a rendered instance. -/
def slotText (inst : Inst) (cls : String) : Option String :=
  inst.slots.lookup cls

/-- Clone-and-fill of the feature-card template (components.js lines 76–90):
icon/title/description slots filled, `dataset.stagger = index`. -/
def featureCardFill (f : Feature) (index : Nat) : Inst :=
  { kind := "feature-card"
    slots := [("feature-icon", f.icon), ("feature-title", f.title),
              ("feature-description", f.description)]
    dataStagger := some index }

/-- Clone-and-fill of the stat-card template (components.js lines 103–123):
`dataset.target = stat.number`, `dataset.suffix = stat.suffix || ''`, the
number slot initially shows `'0' + (stat.suffix || '')`, the label slot the
label, and `dataset.stagger = index`. -/
def statCardFill (s : Stat) (index : Nat) : Inst :=
  { kind := "stat-card"
    slots := [("stat-number", "0" ++ s.suffix.getD ""),
              ("stat-label", s.label)]
    dataStagger := some index
    dataTarget := some s.number
    dataSuffix := some (s.suffix.getD "") }

/-- Clone-and-fill of the event-item template (components.js lines 153–176).
The browser `Date` APIs used for the day/month display (`new Date(...)`,
`getDate().padStart(2,'0')`, `toLocaleDateString('en',{month:'short'})`)
are external collaborators and are passed in as the functions
`parseDay` / `parseMonth` from the date string to the display strings. -/
def eventItemFill (parseDay parseMonth : String → String)
    (e : EventRec) (index : Nat) : Inst :=
  { kind := "event-item"
    slots := [("event-type", e.eventType), ("event-title", e.title),
              ("event-description", e.description),
              ("event-day", parseDay e.date),
              ("event-month", parseMonth e.date)]
    dataStagger := some index }

/-- Clone-and-fill of the contact-item template (components.js lines 189–205). -/
def contactItemFill (c : ContactRec) (index : Nat) : Inst :=
  { kind := "contact-item"
    slots := [("contact-icon", c.icon), ("h4", c.title),
              ("contact-value", c.value),
              ("contact-description", c.description)]
    dataStagger := some index }

/-- Clone-and-fill of the footer-section template (components.js lines
218–234): title slot and one anchor per link.  Unlike the other four
builders, the source sets no `dataset.stagger` on footer sections (the
`forEach` index is unused there), so `dataStagger` stays `none`. -/
def footerSectionFill (s : FooterSection) (_index : Nat) : Inst :=
  { kind := "footer-section"
    slots := [("h3", s.title)]
    links := s.links.map fun l => (l.text, l.url) }

/-- `records.forEach((r, index) => fragment.appendChild(build(r, index)))`:
left fold that threads the zero-based index and accumulates the built
children in order, as the document fragment does. -/
def forEachIdx (xs : List α) (f : α → Nat → β) : List β :=
  (xs.foldl (fun acc x => (acc.1 ++ [f x acc.2], acc.2 + 1))
    (([] : List β), 0)).1

/-! ## Render calls

Each JS renderer is `render(records, container)` with the guard
`if (!container || !records) return;` and finally
`container.appendChild(fragment)`.  A container is modelled as the list of
its children; `none` models a null/missing container or an absent records
argument, and an absent argument leaves the world untouched (the function
returns the container unchanged). -/

/-- `ComponentSystem.renderFeatures` (components.js lines 70–94). -/
def renderFeatures (features : Option (List Feature))
    (container : Option (List Inst)) : Option (List Inst) :=
  match container, features with
  | some c, some fs => some (c ++ forEachIdx fs featureCardFill)
  | _, _ => container

/-- `ComponentSystem.renderStats` (components.js lines 97–127). -/
def renderStats (stats : Option (List Stat))
    (container : Option (List Inst)) : Option (List Inst) :=
  match container, stats with
  | some c, some ss => some (c ++ forEachIdx ss statCardFill)
  | _, _ => container

/-- `ComponentSystem.renderEvents` (components.js lines 147–180);
`parseDay` / `parseMonth` model the external `Date` APIs. -/
def renderEvents (parseDay parseMonth : String → String)
    (events : Option (List EventRec))
    (container : Option (List Inst)) : Option (List Inst) :=
  match container, events with
  | some c, some es => some (c ++ forEachIdx es (eventItemFill parseDay parseMonth))
  | _, _ => container

/-- `ComponentSystem.renderContactInfo` (components.js lines 183–209). -/
def renderContactInfo (contactData : Option (List ContactRec))
    (container : Option (List Inst)) : Option (List Inst) :=
  match container, contactData with
  | some c, some cs => some (c ++ forEachIdx cs contactItemFill)
  | _, _ => container

/-- `ComponentSystem.renderFooterLinks` (components.js lines 212–238). -/
def renderFooterLinks (footerData : Option (List FooterSection))
    (container : Option (List Inst)) : Option (List Inst) :=
  match container, footerData with
  | some c, some fo => some (c ++ forEachIdx fo footerSectionFill)
  | _, _ => container

/-- The data-stagger attributes of a rendered container, in child order. -/
def staggersOf (container : Option (List Inst)) : Option (List (Option Nat)) :=
  container.map (List.map Inst.dataStagger)

/-- The `forEach` fold equals mapping the builder over the indexed list. -/
theorem forEachIdx_aux (f : α → Nat → β) (xs : List α) :
    ∀ (acc : List β) (n : Nat),
      (xs.foldl (fun a x => (a.1 ++ [f x a.2], a.2 + 1)) (acc, n)).1
        = acc ++ (xs.enumFrom n).map (fun p => f p.2 p.1) := by
  induction xs with
  | nil => intro acc n; simp [List.enumFrom]
  | cons x xs ih =>
      intro acc n
      simp only [List.foldl_cons, List.enumFrom, List.map_cons]
      rw [ih]
      simp

theorem forEachIdx_eq_enum (f : α → Nat → β) (xs : List α) :
    forEachIdx xs f = xs.enum.map (fun p => f p.2 p.1) := by
  unfold forEachIdx
  rw [forEachIdx_aux]
  rfl

/-! ## DOM element model for the animation system (`animations.js`)

An element carries its class list (`classList` is set-like: `add` inserts
only when absent, `remove` deletes the token), a few inline style
properties, its text content, and the `data-stagger` attribute.  Style
values are kept structured: `scale(q)` / `translateY(qpx)` transforms and
millisecond transition durations instead of raw CSS strings. -/

/-- Inline style slice touched by the animation code. -/
structure Style where
  opacity : Option ℚ := none
  transformTranslateY : Option ℚ := none
  transformScale : Option ℚ := none
  transitionMs : Option Nat := none
  transitionDelayMs : Option Nat := none
deriving Repr, DecidableEq

/-- A DOM element as seen by the animation system. -/
structure Elem where
  classes : List String := []
  style : Style := {}
  textContent : String := ""
  dataStagger : Option Nat := none
deriving Repr, DecidableEq

/-- `classList.add` via `domManager.addClass`: inserts the token only when
it is not already present. -/
def addClassE (el : Elem) (c : String) : Elem :=
  if c ∈ el.classes then el else { el with classes := el.classes ++ [c] }

/-- `classList.remove`: deletes the token. -/
def removeClassE (el : Elem) (c : String) : Elem :=
  { el with classes := el.classes.filter (· ≠ c) }

/-! ## Scroll reveal (`AnimationSystem.setupScrollReveal`, animations.js 29–55) -/

/-- The `threshold` option passed to the reveal observer (line 46). -/
def revealThreshold : ℚ := 1 / 10

/-- The bottom component, in px, of the reveal observer root margin
`'0px 0px -100px 0px'` (line 46). -/
def revealRootMarginBottom : ℤ := -100

/-- One intersection entry processed by the reveal observer callback
(lines 34–44): when the entry is intersecting, add the class `active` and,
when a `data-stagger` attribute is present (the string is truthy, including
the string `"0"`), set `transitionDelay` to `stagger * 100` ms. -/
def revealStep (isIntersecting : Bool) (el : Elem) : Elem :=
  if isIntersecting then
    let el1 := addClassE el "active"
    match el1.dataStagger with
    | some k => { el1 with style := { el1.style with transitionDelayMs := some (k * 100) } }
    | none => el1
  else el

/-- Final state of a reveal element over a page session: under reduced
motion `setupScrollReveal` returns before creating the observer (line 30),
so no callback ever runs and the element is left untouched; otherwise the
callback processes each intersection event in order. -/
def revealFinal (isReducedMotion : Bool) (events : List Bool) (el : Elem) : Elem :=
  if isReducedMotion then el
  else events.foldl (fun e b => revealStep b e) el

/-- 1-D model of the browser IntersectionObserver bottom root margin
semantics: with the viewport spanning `[0, vh]` and a bottom margin of `m`
px, the root rectangle's bottom edge moves to `vh + m` (a positive margin
grows the root downward, a negative one shrinks it upward); an element
spanning `[top, bot]` intersects the adjusted root exactly when
`top < vh + m` and `0 < bot`. -/
def intersectsBottomMargin (vh m top bot : ℤ) : Bool :=
  decide (top < vh + m) && decide (0 < bot)

/-! ## Counter animation (`AnimationSystem.animateCounter`, animations.js 184–212) -/

/-- Value of an all-digit string, most significant digit first. -/
def digitsToNat : List Char → Nat → Nat
  | [], acc => acc
  | c :: cs, acc => digitsToNat cs (acc * 10 + (c.toNat - '0'.toNat))

/-- `parseInt(target.replace(/\D/g, ''))` (line 192): strip every
non-digit character, then parse; `parseInt('')` is `NaN`, modelled as
`none`. -/
def counterTargetNum (target : String) : Option Nat :=
  let ds := target.data.filter Char.isDigit
  if ds.isEmpty then none else some (digitsToNat ds 0)

/-- Text shown by one counter animation frame sampled at elapsed time
`elapsed` ms (lines 194–209): `progress = min(elapsed/duration, 1)`,
quartic ease-out `1 - (1-progress)^4`,
`current = Math.floor(targetNum * ease)`; while `progress < 1` the frame
shows `current + suffix` (the `NaN` of a digitless target prints as
`"NaN"`), and the final frame overwrites the text with `target + suffix`. -/
def counterDisplayAt (target suffix : String) (duration elapsed : ℚ) : String :=
  let progress := min (elapsed / duration) 1
  let easeOutQuart := 1 - (1 - progress) ^ 4
  if progress < 1 then
    (match counterTargetNum target with
      | some tn => toString ⌊(tn : ℚ) * easeOutQuart⌋
      | none => "NaN") ++ suffix
  else target ++ suffix

/-- The self-rescheduling `requestAnimationFrame` chain of `animateCounter`
(lines 194–211), run over the list of frame timestamps (elapsed ms) the
browser delivers: each frame writes the sampled text and reschedules while
`progress < 1`; the pair's second component counts the frames that ran. -/
def counterChain (target suffix : String) (duration : ℚ) :
    Elem → List ℚ → Elem × Nat
  | el, [] => (el, 0)
  | el, t :: rest =>
      let el1 := { el with textContent := counterDisplayAt target suffix duration t }
      if min (t / duration) 1 < 1 then
        let r := counterChain target suffix duration el1 rest
        (r.1, r.2 + 1)
      else (el1, 1)

/-- `AnimationSystem.animateCounter` (lines 184–212): under reduced motion
it writes `target + suffix` immediately and returns without scheduling any
frame (lines 185–188); otherwise it runs the frame chain. -/
def animateCounter (isReducedMotion : Bool) (el : Elem)
    (target suffix : String) (duration : ℚ) (frames : List ℚ) : Elem × Nat :=
  if isReducedMotion then ({ el with textContent := target ++ suffix }, 0)
  else counterChain target suffix duration el frames

/-! ## Imperative one-shot effects (animations.js 276–335)

Each effect returns the element state once any scheduled animation frame
has run, paired with the number of `requestAnimationFrame` callbacks the
call scheduled (0 under reduced motion: the end state is set synchronously). -/

/-- `AnimationSystem.fadeIn` (lines 276–288). -/
def fadeIn (isReducedMotion : Bool) (el : Elem) (duration : Nat) : Elem × Nat :=
  if isReducedMotion then
    ({ el with style := { el.style with opacity := some 1 } }, 0)
  else
    let el1 := { el with style := { el.style with opacity := some 0, transitionMs := some duration } }
    ({ el1 with style := { el1.style with opacity := some 1 } }, 1)

/-- `AnimationSystem.fadeOut` (lines 291–303): sets the end opacity
synchronously on both paths; the non-reduced path resolves its promise from
a timer, not an animation frame. -/
def fadeOut (isReducedMotion : Bool) (el : Elem) (duration : Nat) : Elem × Nat :=
  if isReducedMotion then
    ({ el with style := { el.style with opacity := some 0 } }, 0)
  else
    ({ el with style := { el.style with opacity := some 0, transitionMs := some duration } }, 0)

/-- `AnimationSystem.slideUp` (lines 306–320): under reduced motion it only
adds the class `active`. -/
def slideUp (isReducedMotion : Bool) (el : Elem) (duration : Nat) : Elem × Nat :=
  if isReducedMotion then (addClassE el "active", 0)
  else
    let el1 := { el with style := { el.style with
      transformTranslateY := some 30, opacity := some 0, transitionMs := some duration } }
    ({ el1 with style := { el1.style with
      transformTranslateY := some 0, opacity := some 1 } }, 1)

/-- `AnimationSystem.scale` (lines 323–335). -/
def scaleEffect (isReducedMotion : Bool) (el : Elem)
    (fromScale toScale : ℚ) (duration : Nat) : Elem × Nat :=
  if isReducedMotion then
    ({ el with style := { el.style with transformScale := some toScale } }, 0)
  else
    let el1 := { el with style := { el.style with
      transformScale := some fromScale, transitionMs := some duration } }
    ({ el1 with style := { el1.style with transformScale := some toScale } }, 1)

/-! ## Observer registry (`DOMManager`, animations.js 1137–1161 and 1223–1231) -/

/-- `DOMManager` state slice for observers: the `observers` map (its keys,
in insertion order) plus which observers have had `disconnect` called on
them.  The source generates string identifiers from `Date.now()` and
`Math.random()`; the embedding numbers handles by creation order, which
preserves the distinctness the generator provides. -/
structure DMState where
  nextId : Nat := 0
  registry : List Nat := []
  disconnectedIds : List Nat := []
  templates : List String := []
deriving Repr, DecidableEq

/-- `DOMManager.createIntersectionObserver` (lines 1137–1161): constructs
the observer, stores it in the registry under a fresh identifier, and
returns a handle. -/
def createIntersectionObserver (s : DMState) : DMState :=
  { s with nextId := s.nextId + 1, registry := s.registry ++ [s.nextId] }

/-- The `disconnect` closure of a handle (lines 1156–1159): disconnects the
underlying observer and deletes its registry entry. -/
def handleDisconnect (id : Nat) (s : DMState) : DMState :=
  { s with registry := s.registry.filter (· ≠ id)
           disconnectedIds := s.disconnectedIds ++ [id] }

/-- `DOMManager.cleanup` (lines 1223–1231): calls `disconnect` on every
registered observer, then clears the registry and the template cache. -/
def dmCleanup (s : DMState) : DMState :=
  { s with disconnectedIds := s.disconnectedIds ++ s.registry
           registry := []
           templates := [] }

/-! ## Debounce and throttle (`DOMManager`, animations.js 1198–1220)

The browser timer queue is made explicit: the wrapped function is driven by
a strictly time-ordered list of `(time, argument)` invocations, and a timer
that is due at or before the next invocation fires first.  The result is
the list of `(time, argument)` calls the wrapped function actually makes. -/

/-- `DOMManager.debounce` (lines 1198–1208): each invocation clears the
pending timer and schedules a new one at `now + wait` carrying its own
arguments; a timer that comes due fires the function once.  `pending` is
the closure variable `timeout`. -/
def debounceRun (wait : Nat) :
    List (Nat × α) → Option (Nat × α) → List (Nat × α)
  | [], pending => match pending with | some p => [p] | none => []
  | (t, a) :: rest, pending =>
      match pending with
      | some (tf, pa) =>
          if tf ≤ t then (tf, pa) :: debounceRun wait rest (some (t + wait, a))
          else debounceRun wait rest (some (t + wait, a))
      | none => debounceRun wait rest (some (t + wait, a))

/-- `DOMManager.throttle` (lines 1211–1220): an invocation outside a
throttle window calls the function immediately and opens a window of
`limit` ms (`inThrottle` resets at `resetAt`); invocations inside the
window are dropped. -/
def throttleRun (limit : Nat) :
    List (Nat × α) → Option Nat → List (Nat × α)
  | [], _ => []
  | (t, a) :: rest, resetAt =>
      match resetAt with
      | none => (t, a) :: throttleRun limit rest (some (t + limit))
      | some r =>
          if r ≤ t then (t, a) :: throttleRun limit rest (some (t + limit))
          else throttleRun limit rest (some r)

/-! ## Field validation (`TeqpodApp.validateField`, animations.js 792–819) -/

/-- A form field: its raw value, whether it has the `required` attribute,
and its `type` attribute. -/
structure FormField where
  value : String
  required : Bool
  fieldType : String
deriving Repr, DecidableEq

/-- The ECMAScript whitespace set, shared by the regex class `\s` and
`String.prototype.trim`: WhiteSpace plus LineTerminator, i.e. tab, LF,
VT, FF, CR, space, NBSP (U+00A0), Ogham space mark (U+1680), the en-quad
through hair-space block (U+2000 to U+200A), line separator (U+2028),
paragraph separator (U+2029), narrow NBSP (U+202F), medium mathematical
space (U+205F), ideographic space (U+3000) and ZWNBSP/BOM (U+FEFF). -/
def isJsSpace (c : Char) : Bool :=
  let n := c.toNat
  n = 0x09 || n = 0x0A || n = 0x0B || n = 0x0C || n = 0x0D || n = 0x20
    || n = 0xA0 || n = 0x1680 || (0x2000 ≤ n && n ≤ 0x200A)
    || n = 0x2028 || n = 0x2029 || n = 0x202F || n = 0x205F
    || n = 0x3000 || n = 0xFEFF

/-- `String.prototype.trim` (line 793): strip whitespace from both ends. -/
def jsTrim (s : String) : String :=
  ⟨((s.data.dropWhile isJsSpace).reverse.dropWhile isJsSpace).reverse⟩

/-- A character matched by the regex class `[^\s@]`. -/
def atomChar (c : Char) : Bool :=
  !(isJsSpace c) && c != '@'

/-- A dot strictly inside the list (not first, not last). -/
def hasInnerDot (r : List Char) : Bool :=
  (List.range r.length).any fun p =>
    decide (0 < p) && decide (p + 1 < r.length) && (r.getD p ' ') == '.'

/-- The regex `^[^\s@]+@[^\s@]+\.[^\s@]+$` (line 804): one or more
non-space-non-at characters, an `@`, one or more non-space-non-at
characters, a dot, one or more non-space-non-at characters.  Since the
local part admits no `@`, the separating `@` is the first one in the
string; the domain part must consist of atom characters and contain a dot
with at least one character on each side. -/
def emailMatch (s : String) : Bool :=
  let cs := s.data
  let l := cs.takeWhile (· != '@')
  match cs.dropWhile (· != '@') with
  | '@' :: r =>
      !l.isEmpty && l.all atomChar && !r.isEmpty && r.all atomChar && hasInnerDot r
  | _ => false

/-- Class-list counterpart of `classList.add`. -/
def addClassL (g : List String) (c : String) : List String :=
  if c ∈ g then g else g ++ [c]

/-- Class-list counterpart of `classList.remove`. -/
def removeClassL (g : List String) (c : String) : List String :=
  g.filter (· ≠ c)

/-- `TeqpodApp.validateField` (lines 792–819): trim the value; the field is
invalid when it is required and the trimmed value is empty, or when it is
an email field with a non-empty trimmed value that fails the regex; the
`error` class of the field group is set when invalid and removed when
valid.  Returns the validity verdict and the updated group class list. -/
def validateField (f : FormField) (groupClasses : List String) :
    Bool × List String :=
  let value := jsTrim f.value
  let isValid := true
  let isValid := if f.required && value.isEmpty then false else isValid
  let isValid :=
    if f.fieldType == "email" && !value.isEmpty && !emailMatch value then false
    else isValid
  let groupClasses :=
    if isValid then removeClassL groupClasses "error"
    else addClassL groupClasses "error"
  (isValid, groupClasses)

/-! ## Helper lemmas -/

/-- The added class is present after `addClassE`. -/
theorem mem_addClassE_self (el : Elem) (c : String) :
    c ∈ (addClassE el c).classes := by
  unfold addClassE
  split
  · assumption
  · simp

/-- `addClassE` never removes a class. -/
theorem mem_addClassE_of_mem (el : Elem) (c d : String)
    (h : c ∈ el.classes) : c ∈ (addClassE el d).classes := by
  unfold addClassE
  split
  · exact h
  · simp [h]

/-- The reveal callback never removes the `active` class. -/
theorem revealStep_preserves_active (b : Bool) (el : Elem)
    (h : "active" ∈ el.classes) : "active" ∈ (revealStep b el).classes := by
  unfold revealStep
  cases b with
  | false => simpa using h
  | true =>
      simp only [if_pos]
      split
      · exact mem_addClassE_of_mem el "active" "active" h
      · exact mem_addClassE_of_mem el "active" "active" h

/-- The `active` class survives any sequence of intersection events. -/
theorem revealFold_preserves_active (events : List Bool) :
    ∀ el : Elem, "active" ∈ el.classes →
      "active" ∈ (events.foldl (fun e b => revealStep b e) el).classes := by
  induction events with
  | nil => intro el h; simpa using h
  | cons b rest ih =>
      intro el h
      exact ih (revealStep b el) (revealStep_preserves_active b el h)

/-- After `k` creations the registry holds exactly the `k` generated
identifiers, in creation order, and nothing was disconnected. -/
theorem iterate_create (k : Nat) :
    createIntersectionObserver^[k] {}
      = { nextId := k, registry := List.range k,
          disconnectedIds := [], templates := [] } := by
  induction k with
  | zero => rfl
  | succ n ih =>
      rw [Function.iterate_succ_apply', ih]
      simp [createIntersectionObserver, List.range_succ]

/-! ## Claims -/

/-- C5: for every `k ≥ 0`, after creating `k` observer handles via the
observer factory — each registered in the process-wide registry under its
generated identifier and kept reachable there until its disconnect is
called — invoking the global cleanup disconnects all `k` underlying
observers and leaves the registry empty. -/
theorem cleanup_disconnects_all (k : Nat) :
    (createIntersectionObserver^[k] ({} : DMState)).registry = List.range k
    ∧ (dmCleanup (createIntersectionObserver^[k] ({} : DMState))).registry = []
    ∧ (dmCleanup (createIntersectionObserver^[k] ({} : DMState))).disconnectedIds
        = List.range k := by
  rw [iterate_create]
  refine ⟨rfl, rfl, ?_⟩
  simp [dmCleanup]

/-- C6: every render call (features, stats, events, contact, footer) is a
no-op when the target container is null/missing or the records argument is
absent: the container value is returned unchanged and, being a total Lean
function, the call raises no exception. -/
theorem render_absent_noop (c : Option (List Inst))
    (fs : List Feature) (ss : List Stat) (pd pm : String → String)
    (es : List EventRec) (cs : List ContactRec) (fo : List FooterSection) :
    renderFeatures none c = c ∧ renderFeatures (some fs) none = none
    ∧ renderStats none c = c ∧ renderStats (some ss) none = none
    ∧ renderEvents pd pm none c = c ∧ renderEvents pd pm (some es) none = none
    ∧ renderContactInfo none c = c ∧ renderContactInfo (some cs) none = none
    ∧ renderFooterLinks none c = c ∧ renderFooterLinks (some fo) none = none := by
  cases c <;>
    exact ⟨rfl, rfl, rfl, rfl, rfl, rfl, rfl, rfl, rfl, rfl⟩

/-- C7: the debounce combinator is trailing-edge with a single pending
call carrying the most recent arguments: with wait 100 and invocations at
times 0, 50 and 90, the wrapped function fires exactly once, at time 190,
with the arguments of the invocation at time 90; the invocations at 0 and
50 never fire. -/
theorem debounce_trailing_edge :
    debounceRun 100 [(0, "argsAt0"), (50, "argsAt50"), (90, "argsAt90")] none
      = [(190, "argsAt90")] := by
  rfl

/-- C8: the throttle combinator is leading-edge with at most one call per
window, extra calls dropped: with limit 10 and invocations at times 0, 5
and 15, the wrapped function fires exactly at times 0 and 15 with the
respective arguments, and the invocation at time 5 never fires. -/
theorem throttle_leading_edge :
    throttleRun 10 [(0, "argsAt0"), (5, "argsAt5"), (15, "argsAt15")] none
      = [(0, "argsAt0"), (15, "argsAt15")] := by
  rfl

/-- C9: for every stat record rendered by the stats renderer, the label
slot carries exactly the label string, the number slot initially carries
exactly `"0"` followed by the suffix (empty if absent), and the true
number is stored in the `data-target` attribute; in particular the stat
`{number := "42", suffix := "%", label := "Growth"}` yields label text
`"Growth"` and initial number text `"0%"`. -/
theorem renderStats_initial_zero (s : Stat) (i : Nat) :
    slotText (statCardFill s i) "stat-label" = some s.label
    ∧ slotText (statCardFill s i) "stat-number" = some ("0" ++ s.suffix.getD "")
    ∧ (statCardFill s i).dataTarget = some s.number
    ∧ (statCardFill s i).dataSuffix = some (s.suffix.getD "")
    ∧ slotText (statCardFill ⟨"42", some "%", "Growth"⟩ 0) "stat-label"
        = some "Growth"
    ∧ slotText (statCardFill ⟨"42", some "%", "Growth"⟩ 0) "stat-number"
        = some "0%" := by
  refine ⟨?_, ?_, rfl, rfl, rfl, rfl⟩ <;> rfl

/-- C1 counterexample: the claim asserts that for every content kind,
footer included, the i-th appended instance carries stagger index i.  The
footer renderer contradicts it: rendering one footer section into an empty
container appends an instance whose `data-stagger` attribute is absent,
not 0 — `renderFooterLinks` never writes `dataset.stagger`. -/
theorem renderFooterLinks_stagger_cex :
    staggersOf (renderFooterLinks
        (some [{ title := "Product", links := [{ text := "Docs", url := "#" }] }])
        (some [])) = some [none]
    ∧ (some [none] : Option (List (Option Nat))) ≠ some [some 0] := by
  exact ⟨rfl, by decide⟩

/-- C1 amended: for features, stats, events and contact, rendering `n`
records into a present container appends exactly `n` rendered instances in
input order, the i-th built from the i-th record and carrying stagger
index i; the footer renderer also appends its `n` instances in input
order, but stamps no stagger index on them. -/
theorem render_appends_in_order (fs : List Feature) (ss : List Stat)
    (pd pm : String → String) (es : List EventRec) (cs : List ContactRec)
    (fo : List FooterSection) (c1 c2 c3 c4 c5 : List Inst) :
    renderFeatures (some fs) (some c1)
      = some (c1 ++ fs.enum.map fun p => featureCardFill p.2 p.1)
    ∧ renderStats (some ss) (some c2)
      = some (c2 ++ ss.enum.map fun p => statCardFill p.2 p.1)
    ∧ renderEvents pd pm (some es) (some c3)
      = some (c3 ++ es.enum.map fun p => eventItemFill pd pm p.2 p.1)
    ∧ renderContactInfo (some cs) (some c4)
      = some (c4 ++ cs.enum.map fun p => contactItemFill p.2 p.1)
    ∧ renderFooterLinks (some fo) (some c5)
      = some (c5 ++ fo.enum.map fun p => footerSectionFill p.2 p.1)
    ∧ (∀ f i, (featureCardFill f i).dataStagger = some i)
    ∧ (∀ s i, (statCardFill s i).dataStagger = some i)
    ∧ (∀ e i, (eventItemFill pd pm e i).dataStagger = some i)
    ∧ (∀ x i, (contactItemFill x i).dataStagger = some i)
    ∧ (∀ s i, (footerSectionFill s i).dataStagger = none) := by
  refine ⟨?_, ?_, ?_, ?_, ?_, fun f i => rfl, fun s i => rfl,
    fun e i => rfl, fun x i => rfl, fun s i => rfl⟩ <;>
    simp [renderFeatures, renderStats, renderEvents, renderContactInfo,
      renderFooterLinks, forEachIdx_eq_enum]

/-- C2 counterexample: the claim asserts that under reduced motion an
element flagged for reveal still ends up in its revealed (active) end
state.  The code contradicts it: `setupScrollReveal` returns before
creating the observer when the reduced-motion flag is set, so a `.reveal`
element receives no intersection callback over the whole session and is
never given the `active` class. -/
theorem reducedMotion_reveal_cex :
    "active" ∉ (revealFinal true [true] { classes := ["reveal"] }).classes := by
  decide

/-- C2 amended: when the reduced-motion flag captured at startup is set,
the fade, slide, scale and counter transitions set their end state
immediately with zero scheduled animation frames; the scroll-reveal setup,
however, is skipped entirely, so an element flagged for reveal is left
untouched — it is never marked active. -/
theorem reducedMotion_immediate_end_state (el : Elem) (d : Nat)
    (fq tq : ℚ) (target suffix : String) (dur : ℚ) (frames : List ℚ)
    (events : List Bool) :
    fadeIn true el d = ({ el with style := { el.style with opacity := some 1 } }, 0)
    ∧ fadeOut true el d = ({ el with style := { el.style with opacity := some 0 } }, 0)
    ∧ slideUp true el d = (addClassE el "active", 0)
    ∧ scaleEffect true el fq tq d
        = ({ el with style := { el.style with transformScale := some tq } }, 0)
    ∧ animateCounter true el target suffix dur frames
        = ({ el with textContent := target ++ suffix }, 0)
    ∧ revealFinal true events el = el := by
  exact ⟨rfl, rfl, rfl, rfl, rfl, rfl⟩

/-- C4 counterexample: the claim describes the reveal observer as
configured with a root margin that triggers 100px before the element
enters the viewport.  The code passes the bottom margin -100px, which
shrinks the root instead of extending it: an element whose top edge sits
50px below an 800px viewport (inside the claimed 100px pre-trigger band)
intersects the root extended by +100px, but does not intersect the root
shrunk by the code's -100px — with the source's margin the element
triggers only after scrolling 100px past the viewport edge, not before. -/
theorem reveal_root_margin_cex :
    revealRootMarginBottom = -100
    ∧ intersectsBottomMargin 800 100 850 900 = true
    ∧ intersectsBottomMargin 800 revealRootMarginBottom 850 900 = false := by
  refine ⟨rfl, ?_, ?_⟩ <;> decide

/-- C4 amended: the reveal observer is configured with threshold 0.1 and
root margin `0px 0px -100px 0px`, whose negative bottom component shrinks
the root so an element triggers only once it extends 100px past the
viewport's bottom edge (after entering, not before); on an intersecting
entry the element is marked active and, when it carries stagger index k,
given a transition delay of exactly k × 100 ms; and once marked active it
is never un-marked by any later sequence of intersection events. -/
theorem reveal_first_intersection_active (el : Elem) (k : Nat)
    (events : List Bool) :
    revealThreshold = 1 / 10
    ∧ revealRootMarginBottom = -100
    ∧ "active" ∈ (revealStep true el).classes
    ∧ (revealStep true { el with dataStagger := some k }).style.transitionDelayMs
        = some (k * 100)
    ∧ "active" ∈ (events.foldl (fun e b => revealStep b e)
        (addClassE el "active")).classes := by
  refine ⟨rfl, rfl, ?_, ?_, ?_⟩
  · unfold revealStep
    simp only [if_pos]
    split
    · exact mem_addClassE_self el "active"
    · exact mem_addClassE_self el "active"
  · by_cases hmem : "active" ∈ el.classes <;>
      simp [revealStep, addClassE, hmem]
  · exact revealFold_preserves_active events (addClassE el "active")
      (mem_addClassE_self el "active")

/-- C10: field validation is total and never raises (it is a total Lean
function); it returns false exactly when the field is required with an
empty trimmed value, or is an email field whose non-empty trimmed value
fails the pattern `[^\s@]+@[^\s@]+\.[^\s@]+`; a non-required email field
left empty is judged valid; and the field group's `error` class is present
after the call exactly when the result is false. -/
theorem validateField_spec (f : FormField) (g : List String) :
    ((validateField f g).1 = false ↔
      ((f.required = true ∧ (jsTrim f.value).isEmpty = true)
        ∨ (f.fieldType = "email" ∧ (jsTrim f.value).isEmpty = false
            ∧ emailMatch (jsTrim f.value) = false)))
    ∧ ("error" ∈ (validateField f g).2 ↔ (validateField f g).1 = false)
    ∧ (validateField { value := "", required := false, fieldType := "email" } g).1
        = true := by
  constructor
  · unfold validateField
    cases hr : f.required <;>
      cases he : (jsTrim f.value).isEmpty <;>
        cases ht : f.fieldType == "email" <;>
          cases hm : emailMatch (jsTrim f.value) <;>
            simp_all
  · constructor
    · unfold validateField
      by_cases hg : "error" ∈ g <;>
        cases hr : f.required <;>
          cases he : (jsTrim f.value).isEmpty <;>
            cases ht : f.fieldType == "email" <;>
              cases hm : emailMatch (jsTrim f.value) <;>
                simp_all [addClassL, removeClassL, List.mem_filter]
    · rfl

/-- C3: for the counter animation with target `T` and duration `D`, a
frame sampled at elapsed time `t` with `0 ≤ t ≤ D` displays exactly
`floor(T * (1 - (1 - t/D)^4))` followed by the suffix, a value that lies
between 0 and `T`; and a frame sampled at `t ≥ D` displays exactly the
original target string followed by the suffix. -/
theorem animateCounter_quartic (T : Nat) (target suffix : String) (D : ℚ)
    (hT : counterTargetNum target = some T)
    (htar : target = toString T)
    (hD : 0 < D) :
    (∀ t : ℚ, 0 ≤ t → t ≤ D →
      counterDisplayAt target suffix D t
          = toString ⌊(T : ℚ) * (1 - (1 - t / D) ^ 4)⌋ ++ suffix
        ∧ 0 ≤ ⌊(T : ℚ) * (1 - (1 - t / D) ^ 4)⌋
        ∧ ⌊(T : ℚ) * (1 - (1 - t / D) ^ 4)⌋ ≤ (T : ℤ))
    ∧ (∀ t : ℚ, D ≤ t → counterDisplayAt target suffix D t = target ++ suffix) := by
  constructor
  · intro t ht htD
    have hp0 : 0 ≤ t / D := div_nonneg ht hD.le
    have hp1 : t / D ≤ 1 := (div_le_one hD).mpr htD
    have hmin : min (t / D) 1 = t / D := min_eq_left hp1
    have hq0 : (0:ℚ) ≤ (1 - t / D) ^ 4 := by positivity
    have hq1 : (1 - t / D) ^ 4 ≤ 1 := by
      have h0 : (0:ℚ) ≤ 1 - t / D := by linarith
      have h1 : (1:ℚ) - t / D ≤ 1 := by linarith
      calc (1 - t / D) ^ 4 ≤ 1 ^ 4 := pow_le_pow_left₀ h0 h1 4
        _ = 1 := one_pow 4
    have hease0 : (0:ℚ) ≤ 1 - (1 - t / D) ^ 4 := by linarith
    have hease1 : 1 - (1 - t / D) ^ 4 ≤ 1 := by linarith
    refine ⟨?_, ?_, ?_⟩
    · unfold counterDisplayAt
      rw [hmin]
      by_cases hlt : t / D < 1
      · simp only [if_pos hlt, hT]
      · have heq : t / D = 1 := le_antisymm hp1 (not_lt.mp hlt)
        rw [if_neg hlt, heq]
        norm_num
        rw [htar]
        rfl
    · exact Int.floor_nonneg.mpr (mul_nonneg (Nat.cast_nonneg T) hease0)
    · calc ⌊(T : ℚ) * (1 - (1 - t / D) ^ 4)⌋
          ≤ ⌊(T : ℚ)⌋ := by
            apply Int.floor_le_floor
            nlinarith [Nat.cast_nonneg (α := ℚ) T]
        _ = (T:ℤ) := Int.floor_natCast T
  · intro t hDt
    have h1 : (1:ℚ) ≤ t / D := (one_le_div hD).mpr hDt
    have hmin : min (t / D) 1 = 1 := min_eq_right h1
    unfold counterDisplayAt
    rw [hmin]
    simp

/-- C3 witness: the stat target 42 with suffix `%` and the default 2000ms
duration, sampled mid-flight at 1000ms and after the end at 2500ms. -/
theorem animateCounter_quartic_witness :
    counterDisplayAt "42" "%" 2000 1000
        = toString ⌊(42 : ℚ) * (1 - (1 - 1000 / 2000) ^ 4)⌋ ++ "%"
    ∧ counterDisplayAt "42" "%" 2000 2500 = "42" ++ "%" := by
  have h := animateCounter_quartic 42 "42" "%" 2000 rfl rfl (by norm_num)
  exact ⟨(h.1 1000 (by norm_num) (by norm_num)).1, h.2 2500 (by norm_num)⟩

end Teqpod
